import Mathlib

/-!
Verification of the lambroll reconciliation core (lambroll.go, diff.go and the
versions listing) against its natural-language specification.

The Go code is shallowly embedded: AWS SDK structs become Lean structures whose
fields keep the SDK names (pointers become `Option`, nil-able maps/slices become
`Option` where the code distinguishes nil from empty, Go string-backed enums
become `String`), and each Go function becomes a pure Lean function with the
same control flow.  Remote I/O (the Lambda API client, the file system, the
hash of the deployment archive, the jsondiff/gojq libraries and time parsing)
is passed in as explicit inputs, and the remote calls a command issues are
returned as an explicit trace.
-/

namespace Lambroll

/-! ## Constants (lambroll.go lines 29-32 and AWS SDK enum values) -/

/-- `versionLatest` from lambroll.go: the mutable-head sentinel version. -/
def versionLatest : String := "$LATEST"

/-- `packageTypeImage` from lambroll.go: the image package type. -/
def packageTypeImage : String := "Image"

/-- `types.ArchitectureX8664` of the AWS SDK. -/
def architectureX8664 : String := "x86_64"

/-- `types.LogFormatText` of the AWS SDK. -/
def logFormatText : String := "Text"

/-- `types.LogFormatJson` of the AWS SDK. -/
def logFormatJson : String := "JSON"

/-- `types.ApplicationLogLevelInfo` of the AWS SDK. -/
def applicationLogLevelInfo : String := "INFO"

/-- `types.SystemLogLevelInfo` of the AWS SDK. -/
def systemLogLevelInfo : String := "INFO"

/-- `types.TracingModePassThrough` of the AWS SDK. -/
def tracingModePassThrough : String := "PassThrough"

/-- `types.SnapStartApplyOnNone` of the AWS SDK. -/
def snapStartApplyOnNone : String := "None"

/-- `aws.ToString` / `aws.StringValue`: dereference a possibly-nil string
pointer, giving `""` for nil. -/
def awsToString (s : Option String) : String := s.getD ""

/-- `aws.BoolValue`: dereference a possibly-nil bool pointer, `false` for nil. -/
def awsBoolValue (b : Option Bool) : Bool := b.getD false

/-- `strings.ToLower` of the Go standard library (ASCII case mapping, which
is all the package-type strings compared by diff.go need). -/
def stringsToLower (s : String) : String :=
  String.mk (s.data.map fun c =>
    if 65 ≤ c.toNat ∧ c.toNat ≤ 90 then Char.ofNat (c.toNat + 32) else c)

/-! ## Data model: the AWS SDK structs the code reads and writes.

Only the fields the embedded code touches are modelled; Go string enums are
plain `String` (zero value `""`), `*T` pointers are `Option T`. -/

/-- `types.FunctionCode`: the desired code reference of a function. -/
structure FunctionCode where
  imageUri : Option String
  s3Bucket : Option String
  s3Key : Option String
  s3ObjectVersion : Option String
  zipFile : Option (List Nat)
  deriving Repr, DecidableEq

/-- `types.FunctionCodeLocation`: where the deployed code of the live
function lives. -/
structure FunctionCodeLocation where
  imageUri : Option String
  location : Option String
  repositoryType : Option String
  resolvedImageUri : Option String
  deriving Repr, DecidableEq

/-- `types.EphemeralStorage`. -/
structure EphemeralStorage where
  size : Option Int
  deriving Repr, DecidableEq

/-- `types.LoggingConfig`.  The two log levels and the format are string
enums (zero value `""`); the log group is a nil-able pointer. -/
structure LoggingConfig where
  applicationLogLevel : String
  logFormat : String
  logGroup : Option String
  systemLogLevel : String
  deriving Repr, DecidableEq

/-- `types.TracingConfig`. -/
structure TracingConfig where
  mode : String
  deriving Repr, DecidableEq

/-- `types.TracingConfigResponse`. -/
structure TracingConfigResponse where
  mode : String
  deriving Repr, DecidableEq

/-- `types.SnapStart`. -/
structure SnapStart where
  applyOn : String
  deriving Repr, DecidableEq

/-- `types.SnapStartResponse`. -/
structure SnapStartResponse where
  applyOn : String
  deriving Repr, DecidableEq

/-- `types.Environment` (the request shape). -/
structure Environment where
  Variables : List (String × String)
  deriving Repr, DecidableEq

/-- `types.EnvironmentResponse` (the live shape). -/
structure EnvironmentResponse where
  Variables : List (String × String)
  deriving Repr, DecidableEq

/-- `types.ImageConfig`. -/
structure ImageConfig where
  command : List String
  entryPoint : List String
  workingDirectory : Option String
  deriving Repr, DecidableEq

/-- `types.ImageConfigResponse`. -/
structure ImageConfigResponse where
  imageConfig : Option ImageConfig
  deriving Repr, DecidableEq

/-- `types.Layer` of a live configuration.  The source dereferences
`layer.Arn` unconditionally, so the ARN is modelled as always present. -/
structure Layer where
  arn : String
  deriving Repr, DecidableEq

/-- `types.FileSystemConfig`. -/
structure FileSystemConfig where
  arn : Option String
  localMountPath : Option String
  deriving Repr, DecidableEq

/-- `types.DeadLetterConfig`. -/
structure DeadLetterConfig where
  targetArn : Option String
  deriving Repr, DecidableEq

/-- `types.VpcConfig` (the request shape). -/
structure VpcConfig where
  subnetIds : List String
  securityGroupIds : List String
  ipv6AllowedForDualStack : Option Bool
  deriving Repr, DecidableEq

/-- `types.VpcConfigResponse`.  `VpcId` is dereferenced unconditionally by
`newFunctionFrom`, so it is modelled as always present. -/
structure VpcConfigResponse where
  vpcId : String
  subnetIds : List String
  securityGroupIds : List String
  ipv6AllowedForDualStack : Option Bool
  deriving Repr, DecidableEq

/-- `Tags` from lambroll.go: `map[string]string`. -/
abbrev Tags := List (String × String)

/-- `Function` from lambroll.go: `type Function lambda.CreateFunctionInput`.
`Layers` distinguishes a nil from an empty slice (`fillDefaultValues` tests it
against nil), so it is an `Option`; `Architectures` is only ever tested with
`len`, so it is a plain list. -/
structure Function where
  architectures : List String
  code : Option FunctionCode
  deadLetterConfig : Option DeadLetterConfig
  description : Option String
  environment : Option Environment
  ephemeralStorage : Option EphemeralStorage
  fileSystemConfigs : List FileSystemConfig
  functionName : Option String
  handler : Option String
  imageConfig : Option ImageConfig
  kmsKeyArn : Option String
  layers : Option (List String)
  loggingConfig : Option LoggingConfig
  memorySize : Option Int
  packageType : String
  role : Option String
  runtime : String
  snapStart : Option SnapStart
  tags : Tags
  timeout : Option Int
  tracingConfig : Option TracingConfig
  vpcConfig : Option VpcConfig
  deriving Repr, DecidableEq

/-- `types.FunctionConfiguration`: the live configuration returned by
GetFunction / ListVersionsByFunction.  `packageType` and `codeSha256` are
`Option` because diff.go (built on the v1 SDK) dereferences them as pointers. -/
structure FunctionConfiguration where
  architectures : List String
  codeSha256 : Option String
  deadLetterConfig : Option DeadLetterConfig
  description : Option String
  environment : Option EnvironmentResponse
  ephemeralStorage : Option EphemeralStorage
  fileSystemConfigs : List FileSystemConfig
  functionName : Option String
  handler : Option String
  imageConfigResponse : Option ImageConfigResponse
  kmsKeyArn : Option String
  lastModified : Option String
  layers : List Layer
  loggingConfig : Option LoggingConfig
  memorySize : Option Int
  packageType : Option String
  role : Option String
  runtime : String
  snapStart : Option SnapStartResponse
  timeout : Option Int
  tracingConfig : Option TracingConfigResponse
  version : Option String
  vpcConfig : Option VpcConfigResponse
  deriving Repr, DecidableEq

/-! ## Errors -/

/-- The error values the embedded operations can surface. -/
inductive LambrollError where
  /-- `errCannotUpdateImageAndZip` from lambroll.go line 445. -/
  | cannotUpdateImageAndZip
  /-- diff.go line 89: "code-sha256 is only supported for Zip package type". -/
  | codeSha256Unsupported
  /-- part_000 line 134: "failed to parse last modified". -/
  | lastModifiedParse
  /-- diff.go line 51: GetFunction failed. -/
  | getFunctionFailed
  /-- diff.go line 65: the ignore query did not parse. -/
  | ignoreParseFailed
  /-- diff.go line 32: the exclude file could not be read. -/
  | excludeFileFailed
  /-- diff.go line 38: the function definition file could not be loaded. -/
  | loadFunctionFailed
  /-- diff.go line 78: the structural diff library failed. -/
  | jsonDiffFailed
  /-- diff.go lines 91-98: preparing or hashing the archive failed. -/
  | zipPrepareFailed
  deriving Repr, DecidableEq

/-! ## lambroll.go: newSnapStart, resolveLogGroup, fillDefaultValues,
newFunctionFrom, validateUpdateFunction -/

/-- `newSnapStart` from lambroll.go lines 415-422. -/
def newSnapStart (s : Option SnapStartResponse) : Option SnapStart :=
  match s with
  | none => none
  | some s => some { applyOn := s.applyOn }

/-- Modelled from the spec: `resolveLogGroup`, the "computed default
log-group name" used by the Defaulting Normalizer, is not under src/; per the
remote service's documented default it is derived from the function's name. -/
def resolveLogGroup (fn : Function) : String :=
  "/aws/lambda/" ++ awsToString fn.functionName

/-- lambroll.go lines 364-366: default the architecture list. -/
def fillArchitectures (fn : Function) : Function :=
  if fn.architectures = [] then
    { fn with architectures := [architectureX8664] } else fn

/-- lambroll.go lines 367-369: default the description. -/
def fillDescription (fn : Function) : Function :=
  if fn.description = none then { fn with description := some "" } else fn

/-- lambroll.go lines 370-372: default the memory size. -/
def fillMemorySize (fn : Function) : Function :=
  if fn.memorySize = none then { fn with memorySize := some 128 } else fn

/-- lambroll.go lines 373-375: replace a nil layer list by the empty list. -/
def fillLayers (fn : Function) : Function :=
  if fn.layers = none then { fn with layers := some [] } else fn

/-- lambroll.go lines 376-394: default the logging configuration.  Each `let`
mirrors one inner `if` mutating the pointed-to configuration in place. -/
def fillLoggingConfig (fn : Function) : Function :=
  match fn.loggingConfig with
  | none =>
    { fn with loggingConfig := some {
        applicationLogLevel := ""
        logFormat := logFormatText
        logGroup := some (resolveLogGroup fn)
        systemLogLevel := "" } }
  | some lc =>
    let lc := if lc.logFormat = "" then { lc with logFormat := logFormatText } else lc
    let lc := if lc.logGroup = none then
      { lc with logGroup := some (resolveLogGroup fn) } else lc
    let lc := if lc.applicationLogLevel = "" ∧ lc.logFormat = logFormatJson then
      { lc with applicationLogLevel := applicationLogLevelInfo } else lc
    let lc := if lc.systemLogLevel = "" ∧ lc.logFormat = logFormatJson then
      { lc with systemLogLevel := systemLogLevelInfo } else lc
    { fn with loggingConfig := some lc }

/-- lambroll.go lines 395-399: default the tracing mode. -/
def fillTracingConfig (fn : Function) : Function :=
  if fn.tracingConfig = none then
    { fn with tracingConfig := some { mode := tracingModePassThrough } } else fn

/-- lambroll.go lines 400-404: default the ephemeral storage size. -/
def fillEphemeralStorage (fn : Function) : Function :=
  if fn.ephemeralStorage = none then
    { fn with ephemeralStorage := some { size := some 512 } } else fn

/-- lambroll.go lines 405-407: default the timeout. -/
def fillTimeout (fn : Function) : Function :=
  if fn.timeout = none then { fn with timeout := some 3 } else fn

/-- lambroll.go lines 408-412: default the snapshot-start policy. -/
def fillSnapStart (fn : Function) : Function :=
  if fn.snapStart = none then
    { fn with snapStart := some { applyOn := snapStartApplyOnNone } } else fn

/-- `fillDefaultValues` from lambroll.go lines 360-413, restricted to a
non-nil definition (the nil early-return is `fillDefaultValuesOpt`): the
source's sequence of in-place `if` statements, one named step each, applied
in source order. -/
def fillDefaultValues (fn : Function) : Function :=
  fillSnapStart (fillTimeout (fillEphemeralStorage (fillTracingConfig
    (fillLoggingConfig (fillLayers (fillMemorySize (fillDescription
      (fillArchitectures fn))))))))

/-- `fillDefaultValues` including the `fn == nil` early return of
lambroll.go lines 361-363: a nil pointer is left untouched. -/
def fillDefaultValuesOpt (fn : Option Function) : Option Function :=
  match fn with
  | none => none
  | some fn => some (fillDefaultValues fn)

/-- The layer-ARN loop of lambroll.go lines 331-333: `append` to a slice that
starts nil, so an empty loop leaves the slice nil. -/
def appendLayerArns (acc : Option (List String)) : List Layer → Option (List String)
  | [] => acc
  | l :: ls => appendLayerArns (some (acc.getD [] ++ [l.arn])) ls

/-- The image-detection test of lambroll.go line 347, first disjunct:
`code != nil && aws.ToString(code.RepositoryType) == "ECR"`. -/
def repoTypeIsECR (code : Option FunctionCodeLocation) : Bool :=
  match code with
  | none => false
  | some cl => awsToString cl.repositoryType == "ECR"

/-- lambroll.go lines 301-316: the initial field-by-field copy of the live
configuration into a fresh `Function` (every field not copied is the Go zero
value: a nil pointer/slice/map or the empty string). -/
def newFunctionBase (c : FunctionConfiguration) : Function := {
  architectures := c.architectures
  code := none
  deadLetterConfig := c.deadLetterConfig
  description := c.description
  environment := none
  ephemeralStorage := c.ephemeralStorage
  fileSystemConfigs := c.fileSystemConfigs
  functionName := c.functionName
  handler := c.handler
  imageConfig := none
  kmsKeyArn := c.kmsKeyArn
  layers := none
  loggingConfig := c.loggingConfig
  memorySize := c.memorySize
  packageType := ""
  role := c.role
  runtime := c.runtime
  snapStart := newSnapStart c.snapStart
  tags := []
  timeout := c.timeout
  tracingConfig := none
  vpcConfig := none }

/-- lambroll.go lines 318-322: copy the environment variables. -/
def newFunctionEnvironment (c : FunctionConfiguration) (fn : Function) : Function :=
  match c.environment with
  | none => fn
  | some e => { fn with environment := some { Variables := e.Variables } }

/-- lambroll.go lines 324-330: copy the image configuration. -/
def newFunctionImageConfig (c : FunctionConfiguration) (fn : Function) : Function :=
  match c.imageConfigResponse with
  | none => fn
  | some i =>
    match i.imageConfig with
    | none => fn
    | some ic => { fn with imageConfig := some {
        command := ic.command
        entryPoint := ic.entryPoint
        workingDirectory := ic.workingDirectory } }

/-- lambroll.go lines 331-333: the layer-ARN copy loop. -/
def newFunctionLayers (c : FunctionConfiguration) (fn : Function) : Function :=
  { fn with layers := appendLayerArns fn.layers c.layers }

/-- lambroll.go lines 334-338: copy the tracing mode. -/
def newFunctionTracing (c : FunctionConfiguration) (fn : Function) : Function :=
  match c.tracingConfig with
  | none => fn
  | some t => { fn with tracingConfig := some { mode := t.mode } }

/-- lambroll.go lines 339-345: copy the VPC attachment when one is present
(the source dereferences `v.VpcId` unconditionally). -/
def newFunctionVpc (c : FunctionConfiguration) (fn : Function) : Function :=
  match c.vpcConfig with
  | none => fn
  | some v =>
    if v.vpcId ≠ "" then
      { fn with vpcConfig := some {
          subnetIds := v.subnetIds
          securityGroupIds := v.securityGroupIds
          ipv6AllowedForDualStack := v.ipv6AllowedForDualStack } }
    else fn

/-- lambroll.go lines 347-353: the image-detection branch.  Note the second
disjunct reads `fn.PackageType` of the value under construction (not the
live configuration's declared package type).  When the branch is taken the
source also dereferences `code.ImageUri` for a debug log line. -/
def newFunctionCode (code : Option FunctionCodeLocation) (fn : Function) : Function :=
  if repoTypeIsECR code || fn.packageType == packageTypeImage then
    { fn with
        packageType := packageTypeImage
        code := some {
          imageUri := code.bind FunctionCodeLocation.imageUri
          s3Bucket := none
          s3Key := none
          s3ObjectVersion := none
          zipFile := none } }
  else fn

/-- lambroll.go line 355: attach the tag map. -/
def newFunctionTags (tags : Tags) (fn : Function) : Function :=
  { fn with tags := tags }

/-- `newFunctionFrom` from lambroll.go lines 297-358 (nil receiver
included): the source's statement sequence, one named step each, applied in
source order. -/
def newFunctionFrom (c : Option FunctionConfiguration)
    (code : Option FunctionCodeLocation) (tags : Tags) : Option Function :=
  match c with
  | none => none
  | some c =>
    some (newFunctionTags tags (newFunctionCode code (newFunctionVpc c
      (newFunctionTracing c (newFunctionLayers c (newFunctionImageConfig c
        (newFunctionEnvironment c (newFunctionBase c))))))))

/-- `validateUpdateFunction` from lambroll.go lines 447-472. -/
def validateUpdateFunction (currentConf : Option FunctionConfiguration)
    (currentCode : Option FunctionCodeLocation) (newFn : Function) :
    Except LambrollError Unit :=
  match currentConf with
  | none => .ok ()
  | some currentConf =>
    let newCode := newFn.code
    -- new=Image
    if (newCode.bind FunctionCode.imageUri).isSome
        || newFn.packageType == packageTypeImage then
      -- current=Zip
      if (currentCode.bind FunctionCodeLocation.imageUri).isNone then
        .error .cannotUpdateImageAndZip
      else
        validateUpdateFunctionTail currentConf currentCode newCode
    else
      validateUpdateFunctionTail currentConf currentCode newCode
where
  /-- The second guard (current=Image, new=Zip) and the final `return nil`. -/
  validateUpdateFunctionTail (currentConf : FunctionConfiguration)
      (currentCode : Option FunctionCodeLocation) (newCode : Option FunctionCode) :
      Except LambrollError Unit :=
    if (currentCode.bind FunctionCodeLocation.imageUri).isSome
        || currentConf.packageType == some packageTypeImage then
      if (newCode.bind FunctionCode.imageUri).isNone then
        .error .cannotUpdateImageAndZip
      else
        .ok ()
    else
      .ok ()

/-- The desired definition's backing type, as the first guard of
`validateUpdateFunction` reads it: image-backed when the code reference
carries an image URI or the declared package type is `Image`. -/
def functionIsImageBacked (fn : Function) : Bool :=
  (fn.code.bind FunctionCode.imageUri).isSome || fn.packageType == packageTypeImage

/-- The live resource's backing type, as the second guard of
`validateUpdateFunction` reads it: image-backed when the code location
carries an image URI or the declared package type is `Image`. -/
def remoteIsImageBacked (conf : FunctionConfiguration)
    (code : Option FunctionCodeLocation) : Bool :=
  (code.bind FunctionCodeLocation.imageUri).isSome
    || conf.packageType == some packageTypeImage

/-! ## The versions listing (src/unnamed/part_000, `Versions`).

The two pagination loops consume pages until the continuation marker is nil;
they are embedded by taking the sequence of pages each remote listing returns
as input.  `time.Parse` is an external collaborator and is passed in as
`parseTime` (`none` models a parse error). -/

/-- One element of `ListAliasesOutput.Aliases` (`types.AliasConfiguration`).
`Name` and `FunctionVersion` are dereferenced unconditionally by `Versions`,
so they are modelled as always present.  `AdditionalVersionWeights` is a
`map[string]float64` whose values (the traffic weights) are never read by
this code — only its keys are iterated — so it is modelled by its key list. -/
structure AliasConfiguration where
  name : String
  functionVersion : String
  additionalVersionWeights : Option (List String)
  deriving Repr, DecidableEq

/-- `aliases[v] = append(aliases[v], name)` on the version→alias-names map
(a missing key reads as the empty list, like a nil Go map entry). -/
def aliasMapAdd (m : String → List String) (v name : String) : String → List String :=
  fun w => if w = v then m w ++ [name] else m w

/-- The alias-collection loop body of part_000 lines 97-105: for each alias,
record its name under its primary version and under every weighted secondary
version. -/
def collectAliases (m : String → List String) :
    List AliasConfiguration → (String → List String)
  | [] => m
  | a :: rest =>
    let m := aliasMapAdd m a.functionVersion a.name
    let m :=
      match a.additionalVersionWeights with
      | none => m
      | some ws => ws.foldl (fun m v => aliasMapAdd m v a.name) m
    collectAliases m rest

/-- The full alias pagination loop of part_000 lines 87-109 over the pages
returned by `ListAliases`, starting from the empty map. -/
def collectAliasPages (pages : List (List AliasConfiguration)) : String → List String :=
  pages.foldl collectAliases (fun _ => [])

/-- One output record of the versions listing (`versionsOutput`).
`lastModified` holds the parsed timestamp (opaque here). -/
structure VersionsOutput where
  version : String
  aliases : List String
  lastModified : String
  runtime : String
  deriving Repr, DecidableEq

/-- The output-building loop of part_000 lines 127-142: skip the mutable
head sentinel, parse the last-modified timestamp (aborting the whole listing
on failure), and emit one record per remaining version in fetch order. -/
def buildVersionsOutputs (parseTime : String → Option String)
    (aliases : String → List String) :
    List FunctionConfiguration → Except LambrollError (List VersionsOutput)
  | [] => .ok []
  | v :: rest =>
    if awsToString v.version = versionLatest then
      buildVersionsOutputs parseTime aliases rest
    else
      match parseTime (awsToString v.lastModified) with
      | none => .error .lastModifiedParse
      | some lm =>
        match buildVersionsOutputs parseTime aliases rest with
        | .error e => .error e
        | .ok tail => .ok ({
            version := awsToString v.version
            aliases := aliases (awsToString v.version)
            lastModified := lm
            runtime := v.runtime } :: tail)

/-- The listing core of `Versions` (part_000 lines 87-142): collect the
alias map over all alias pages, concatenate all version pages in fetch order,
and build the output records. -/
def versionsList (parseTime : String → Option String)
    (aliasPages : List (List AliasConfiguration))
    (versionPages : List (List FunctionConfiguration)) :
    Except LambrollError (List VersionsOutput) :=
  buildVersionsOutputs parseTime (collectAliasPages aliasPages) versionPages.flatten

/-- The weighted secondary versions of an alias, as the loop of part_000
lines 99-104 reads them (nil routing config and nil weight map contribute
nothing). -/
def weightVersions (a : AliasConfiguration) : List String :=
  a.additionalVersionWeights.getD []

/-! ## The Diff operation (src/diff.go).

`Diff`'s collaborators — the local file system (exclude file, function file,
archive), the remote client, gojq, jsondiff and the SHA-256 hash — are passed
in as `DiffExternals`; the remote calls issued are returned as a trace. -/

/-- The vocabulary of remote Lambda API calls lambroll issues across its
commands; `Diff` may only ever issue `getFunction`. -/
inductive RemoteCall where
  | getFunction
  | listAliases
  | listVersionsByFunction
  | getAlias
  | createFunction
  | updateFunctionConfiguration
  | updateFunctionCode
  | publishVersion
  | createAlias
  | updateAlias
  | deleteAlias
  | deleteFunction
  deriving Repr, DecidableEq

/-- Whether a remote call mutates remote state (create/update/publish/alias
/delete calls) or is a pure read. -/
def RemoteCall.isMutating : RemoteCall → Bool
  | .getFunction => false
  | .listAliases => false
  | .listVersionsByFunction => false
  | .getAlias => false
  | .createFunction => true
  | .updateFunctionConfiguration => true
  | .updateFunctionCode => true
  | .publishVersion => true
  | .createAlias => true
  | .updateAlias => true
  | .deleteAlias => true
  | .deleteFunction => true

/-- `DiffOption` from diff.go lines 19-26 (the fields `Diff` reads). -/
structure DiffOption where
  codeSha256 : Option Bool
  ignore : Option String
  deriving Repr, DecidableEq

/-- The successful result of `GetFunction`: configuration, code location and
tags. -/
structure GetFunctionOutput where
  configuration : FunctionConfiguration
  code : Option FunctionCodeLocation
  tags : Tags
  deriving Repr, DecidableEq

/-- The outcome of a successful `Diff`: whether the CodeSha256 diff lines
were printed (diff.go lines 101-107). -/
structure DiffOutcome where
  digestPrinted : Bool
  deriving Repr, DecidableEq

/-- The external collaborators of one `Diff` invocation. -/
structure DiffExternals where
  /-- The parsed options. -/
  opt : DiffOption
  /-- `expandExcludeFile` (local file system, diff.go line 30). -/
  expandExcludeFile : Except LambrollError (List String)
  /-- `app.loadFunction` (local file system + templating, diff.go line 36). -/
  loadFunctionResult : Except LambrollError Function
  /-- The remote `GetFunction` round trip (diff.go lines 48-58). -/
  getFunctionResult : Except LambrollError GetFunctionOutput
  /-- Whether `gojq.Parse` accepts the ignore query (diff.go line 64). -/
  gojqParseOk : Bool
  /-- The structural diff text from `jsondiff.Diff` (diff.go line 73). -/
  jsonDiffResult : Except LambrollError String
  /-- `prepareZipfile` + SHA-256: the base64 content digest of the candidate
  archive (diff.go lines 91-99). -/
  zipDigest : Except LambrollError String

/-- `Diff` from diff.go lines 29-111: the trace of remote calls issued and
the result.  Control flow mirrors the source: exclude-file expansion and
function loading precede the single `GetFunction` call; the ignore query is
parsed, the structural diff is printed, `validateUpdateFunction` may abort,
and only then is the optional CodeSha256 comparison run. -/
def diffOp (ext : DiffExternals) : List RemoteCall × Except LambrollError DiffOutcome :=
  match ext.expandExcludeFile with
  | .error e => ([], .error e)
  | .ok _excludes =>
    match ext.loadFunctionResult with
    | .error e => ([], .error e)
    | .ok newFunc0 =>
      let newFunc := fillDefaultValues newFunc0
      match ext.getFunctionResult with
      | .error e => ([.getFunction], .error e)
      | .ok res =>
        let latest := res.configuration
        let code := res.code
        let tags := res.tags
        let currentCodeSha256 := awsToString latest.codeSha256
        let packageType := awsToString latest.packageType
        let _latestFunc := fillDefaultValuesOpt (newFunctionFrom (some latest) code tags)
        if awsToString ext.opt.ignore ≠ "" ∧ ¬ ext.gojqParseOk then
          ([.getFunction], .error .ignoreParseFailed)
        else
          match ext.jsonDiffResult with
          | .error e => ([.getFunction], .error e)
          | .ok _diffText =>
            match validateUpdateFunction (some latest) code newFunc with
            | .error e => ([.getFunction], .error e)
            | .ok _ =>
              if awsBoolValue ext.opt.codeSha256 then
                if stringsToLower packageType ≠ "zip" then
                  ([.getFunction], .error .codeSha256Unsupported)
                else
                  match ext.zipDigest with
                  | .error e => ([.getFunction], .error e)
                  | .ok newCodeSha256 =>
                    ([.getFunction], .ok { digestPrinted := newCodeSha256 != currentCodeSha256 })
              else
                ([.getFunction], .ok { digestPrinted := false })

/-! ## Spec-side definitions.

`fillDefaultValuesSpec` follows the words of the specification's Defaulting
Normalizer contract (each absent optional field gets its documented default,
independently of the others); it is compared with `fillDefaultValues`, the
definition taken from the source.  `versionAsc` is the spec's
"lexicographic-by-padded-integer" (i.e. numeric) version order. -/

/-- The logging configuration after normalization, per the spec: text format
when absent, the computed default log-group name when absent, and info-level
application/system verbosity filled only when the (resulting) format is
JSON. -/
def fillLoggingSpec (fn : Function) : LoggingConfig :=
  let lc := fn.loggingConfig.getD {
    applicationLogLevel := ""
    logFormat := ""
    logGroup := none
    systemLogLevel := "" }
  let fmt := if lc.logFormat = "" then logFormatText else lc.logFormat
  { applicationLogLevel :=
      if lc.applicationLogLevel = "" ∧ fmt = logFormatJson then
        applicationLogLevelInfo
      else lc.applicationLogLevel
    logFormat := fmt
    logGroup := some (lc.logGroup.getD (resolveLogGroup fn))
    systemLogLevel :=
      if lc.systemLogLevel = "" ∧ fmt = logFormatJson then
        systemLogLevelInfo
      else lc.systemLogLevel }

/-- The Defaulting Normalizer per the spec's words: every listed optional
field gets exactly its documented default when absent and is left unchanged
when present; all other fields are untouched. -/
def fillDefaultValuesSpec (fn : Function) : Function :=
  { fn with
    architectures :=
      if fn.architectures = [] then [architectureX8664] else fn.architectures
    description := some (fn.description.getD "")
    memorySize := some (fn.memorySize.getD 128)
    layers := some (fn.layers.getD [])
    loggingConfig := some (fillLoggingSpec fn)
    tracingConfig := some (fn.tracingConfig.getD { mode := tracingModePassThrough })
    ephemeralStorage := some (fn.ephemeralStorage.getD { size := some 512 })
    timeout := some (fn.timeout.getD 3)
    snapStart := some (fn.snapStart.getD { applyOn := snapStartApplyOnNone }) }

/-- Strict lexicographic comparison of character sequences by code point. -/
def lexLt : List Char → List Char → Bool
  | [], [] => false
  | [], _ :: _ => true
  | _ :: _, [] => false
  | a :: as, b :: bs =>
    if a.val < b.val then true
    else if b.val < a.val then false
    else lexLt as bs

/-- The service's natural ascending version order per the spec:
lexicographic after padding the numeric identifiers to equal width, which on
digit strings is "shorter first, then lexicographic". -/
def versionAsc (a b : String) : Prop :=
  a.length < b.length ∨ (a.length = b.length ∧ lexLt a.data b.data = true)

instance (a b : String) : Decidable (versionAsc a b) := by
  unfold versionAsc; infer_instance

/-! ## Helper lemmas -/

/-- Two function definitions with equal fields are equal. -/
theorem funEq {a b : Function}
    (h1 : a.architectures = b.architectures) (h2 : a.code = b.code)
    (h3 : a.deadLetterConfig = b.deadLetterConfig) (h4 : a.description = b.description)
    (h5 : a.environment = b.environment) (h6 : a.ephemeralStorage = b.ephemeralStorage)
    (h7 : a.fileSystemConfigs = b.fileSystemConfigs) (h8 : a.functionName = b.functionName)
    (h9 : a.handler = b.handler) (h10 : a.imageConfig = b.imageConfig)
    (h11 : a.kmsKeyArn = b.kmsKeyArn) (h12 : a.layers = b.layers)
    (h13 : a.loggingConfig = b.loggingConfig) (h14 : a.memorySize = b.memorySize)
    (h15 : a.packageType = b.packageType) (h16 : a.role = b.role)
    (h17 : a.runtime = b.runtime) (h18 : a.snapStart = b.snapStart)
    (h19 : a.tags = b.tags) (h20 : a.timeout = b.timeout)
    (h21 : a.tracingConfig = b.tracingConfig) (h22 : a.vpcConfig = b.vpcConfig) :
    a = b := by
  cases a; cases b; simp_all

/-- `fillArchitectures` as a single record update. -/
theorem fillArchitectures_eq (g : Function) :
    fillArchitectures g = { g with architectures :=
      if g.architectures = [] then [architectureX8664] else g.architectures } := by
  by_cases h : g.architectures = [] <;> simp [fillArchitectures, h]

/-- `fillDescription` as a single record update. -/
theorem fillDescription_eq (g : Function) :
    fillDescription g = { g with description := some (g.description.getD "") } := by
  cases h : g.description
  · simp [fillDescription, h]
  · simp [fillDescription, h]
    rw [← h]

/-- `fillMemorySize` as a single record update. -/
theorem fillMemorySize_eq (g : Function) :
    fillMemorySize g = { g with memorySize := some (g.memorySize.getD 128) } := by
  cases h : g.memorySize
  · simp [fillMemorySize, h]
  · simp [fillMemorySize, h]
    rw [← h]

/-- `fillLayers` as a single record update. -/
theorem fillLayers_eq (g : Function) :
    fillLayers g = { g with layers := some (g.layers.getD []) } := by
  cases h : g.layers
  · simp [fillLayers, h]
  · simp [fillLayers, h]
    rw [← h]

/-- `fillLoggingConfig` computes exactly the spec-side logging default. -/
theorem fillLoggingConfig_eq (g : Function) :
    fillLoggingConfig g = { g with loggingConfig := some (fillLoggingSpec g) } := by
  rcases h : g.loggingConfig with _ | ⟨app, fmt, grp, sys⟩ <;>
    simp only [fillLoggingConfig, fillLoggingSpec, h, Option.getD]
  · rfl
  · rcases grp with _ | grpv <;> by_cases h1 : fmt = "" <;>
      by_cases h3 : app = "" <;> by_cases h4 : sys = "" <;>
      by_cases h5 : fmt = logFormatJson <;>
      simp_all [logFormatText, logFormatJson]

/-- `fillTracingConfig` as a single record update. -/
theorem fillTracingConfig_eq (g : Function) :
    fillTracingConfig g = { g with tracingConfig := some (g.tracingConfig.getD { mode := tracingModePassThrough }) } := by
  cases h : g.tracingConfig
  · simp [fillTracingConfig, h]
  · simp [fillTracingConfig, h]
    rw [← h]

/-- `fillEphemeralStorage` as a single record update. -/
theorem fillEphemeralStorage_eq (g : Function) :
    fillEphemeralStorage g = { g with ephemeralStorage := some (g.ephemeralStorage.getD { size := some 512 }) } := by
  cases h : g.ephemeralStorage
  · simp [fillEphemeralStorage, h]
  · simp [fillEphemeralStorage, h]
    rw [← h]

/-- `fillTimeout` as a single record update. -/
theorem fillTimeout_eq (g : Function) :
    fillTimeout g = { g with timeout := some (g.timeout.getD 3) } := by
  cases h : g.timeout
  · simp [fillTimeout, h]
  · simp [fillTimeout, h]
    rw [← h]

/-- `fillSnapStart` as a single record update. -/
theorem fillSnapStart_eq (g : Function) :
    fillSnapStart g = { g with snapStart := some (g.snapStart.getD { applyOn := snapStartApplyOnNone }) } := by
  cases h : g.snapStart
  · simp [fillSnapStart, h]
  · simp [fillSnapStart, h]
    rw [← h]

/-- The source normalizer agrees with the spec-side normalizer on every
definition: the sequential in-place defaulting of lambroll.go lines 360-413
computes exactly the independent per-field defaults. -/
theorem fillDefaultValues_eq_spec (fn : Function) :
    fillDefaultValues fn = fillDefaultValuesSpec fn := by
  refine funEq ?_ ?_ ?_ ?_ ?_ ?_ ?_ ?_ ?_ ?_ ?_ ?_ ?_ ?_ ?_ ?_ ?_ ?_ ?_ ?_ ?_ ?_ <;>
    simp [fillDefaultValues, fillDefaultValuesSpec, fillArchitectures_eq,
      fillDescription_eq, fillMemorySize_eq, fillLayers_eq, fillLoggingConfig_eq,
      fillTracingConfig_eq, fillEphemeralStorage_eq, fillTimeout_eq,
      fillSnapStart_eq, fillLoggingSpec, resolveLogGroup]

/-- The spec-side normalizer is a projection: applying it twice equals
applying it once. -/
theorem fillDefaultValuesSpec_idem (fn : Function) :
    fillDefaultValuesSpec (fillDefaultValuesSpec fn) = fillDefaultValuesSpec fn := by
  refine funEq ?_ rfl rfl ?_ rfl ?_ rfl rfl rfl rfl rfl ?_ ?_ ?_ rfl rfl rfl ?_ rfl ?_ ?_ rfl
  · -- architectures
    simp only [fillDefaultValuesSpec]
    by_cases h : fn.architectures = [] <;> simp [h, architectureX8664]
  · -- description
    simp [fillDefaultValuesSpec]
  · -- ephemeralStorage
    simp [fillDefaultValuesSpec]
  · -- layers
    simp [fillDefaultValuesSpec]
  · -- loggingConfig
    rcases hlc : fn.loggingConfig with _ | ⟨app, fmt, grp, sys⟩
    · simp [fillDefaultValuesSpec, fillLoggingSpec, resolveLogGroup, hlc,
        logFormatText, logFormatJson]
    · simp only [fillDefaultValuesSpec, fillLoggingSpec, resolveLogGroup, hlc,
        Option.getD]
      by_cases h1 : fmt = "" <;> by_cases h3 : app = "" <;> by_cases h4 : sys = "" <;>
        by_cases h5 : fmt = logFormatJson <;>
        simp_all [logFormatText, logFormatJson, applicationLogLevelInfo,
          systemLogLevelInfo]
  · -- memorySize
    simp [fillDefaultValuesSpec]
  · -- snapStart
    simp [fillDefaultValuesSpec]
  · -- timeout
    simp [fillDefaultValuesSpec]
  · -- tracingConfig
    simp [fillDefaultValuesSpec]

/-- C2: normalization is idempotent — applying `fillDefaultValues` twice
yields the same value as applying it once, so every already-normalized
definition is a fixed point. -/
theorem fillDefaultValues_idempotent (fn : Function) :
    fillDefaultValues (fillDefaultValues fn) = fillDefaultValues fn := by
  rw [fillDefaultValues_eq_spec fn, fillDefaultValues_eq_spec,
    fillDefaultValuesSpec_idem]

/-- C4: `fillDefaultValues` fills exactly the documented defaults for each
absent optional field — default architecture list, empty description,
memory 128, empty layer list, text log format with the computed default
log group (info-level application/system verbosity only for JSON format),
pass-through tracing, 512 MiB ephemeral storage, timeout 3 and
snapshot-start "None" — and leaves present fields unchanged, as stated by
the spec-side normalizer `fillDefaultValuesSpec`. -/
theorem fillDefaultValues_documented_defaults (fn : Function) :
    fillDefaultValues fn = fillDefaultValuesSpec fn :=
  fillDefaultValues_eq_spec fn

/-- C10: the reconstruction and normalization operations tolerate an absent
input — `newFunctionFrom` with a nil configuration returns nil for every
code location and tag set, and `fillDefaultValues` on a nil definition
returns it untouched. -/
theorem nil_inputs_tolerated (code : Option FunctionCodeLocation) (tags : Tags) :
    newFunctionFrom none code tags = none ∧ fillDefaultValuesOpt none = none :=
  ⟨rfl, rfl⟩

/-- C1: with a current configuration present, `validateUpdateFunction`
fails with `errCannotUpdateImageAndZip` exactly when the current and
desired backing types (archive vs image) differ, and succeeds when they
agree; with no current configuration (the create path) it always succeeds.
The function is pure — it issues no remote calls at all.  The two
well-formedness hypotheses say a state whose declared package type is
`Image` carries an image URI, which is how the service and the definition
file represent an image-backed function. -/
theorem validateUpdateFunction_codeTypeGuard
    (conf : FunctionConfiguration) (code : Option FunctionCodeLocation) (fn : Function)
    (hconf : conf.packageType = some packageTypeImage →
      (code.bind FunctionCodeLocation.imageUri).isSome = true)
    (hfn : fn.packageType = packageTypeImage →
      (fn.code.bind FunctionCode.imageUri).isSome = true) :
    validateUpdateFunction none code fn = .ok () ∧
    validateUpdateFunction (some conf) code fn =
      (if remoteIsImageBacked conf code ≠ functionIsImageBacked fn
       then .error .cannotUpdateImageAndZip else .ok ()) := by
  refine ⟨rfl, ?_⟩
  obtain ⟨arch, fcode, dlc, desc, env, eph, fsc, name, hdl, icfg, kms, lay, lcf,
    mem, pt, role, rt, ss, tg, tmo, trc, vpc⟩ := fn
  rcases fcode with _ | ⟨fiu, fs3b, fs3k, fs3v, fzf⟩ <;>
    rcases code with _ | ⟨ciu, cloc, crt, criu⟩ <;>
    (try rcases fiu with _ | u1) <;> (try rcases ciu with _ | u2) <;>
    by_cases h2 : pt = packageTypeImage <;>
    by_cases h4 : conf.packageType = some packageTypeImage <;>
    simp_all [validateUpdateFunction, validateUpdateFunction.validateUpdateFunctionTail,
      remoteIsImageBacked, functionIsImageBacked, beq_iff_eq]

def c1Conf : FunctionConfiguration := {
  architectures := []
  codeSha256 := none
  deadLetterConfig := none
  description := none
  environment := none
  ephemeralStorage := none
  fileSystemConfigs := []
  functionName := some "f"
  handler := none
  imageConfigResponse := none
  kmsKeyArn := none
  lastModified := none
  layers := []
  loggingConfig := none
  memorySize := none
  packageType := some "Image"
  role := none
  runtime := ""
  snapStart := none
  timeout := none
  tracingConfig := none
  version := some "1"
  vpcConfig := none }

def c1Code : FunctionCodeLocation := {
  imageUri := some "123.dkr.ecr.example/app:latest"
  location := none
  repositoryType := some "ECR"
  resolvedImageUri := none }

def c1Fn : Function := {
  architectures := []
  code := some {
    imageUri := some "123.dkr.ecr.example/app:latest"
    s3Bucket := none
    s3Key := none
    s3ObjectVersion := none
    zipFile := none }
  deadLetterConfig := none
  description := none
  environment := none
  ephemeralStorage := none
  fileSystemConfigs := []
  functionName := some "f"
  handler := none
  imageConfig := none
  kmsKeyArn := none
  layers := none
  loggingConfig := none
  memorySize := none
  packageType := "Image"
  role := none
  runtime := ""
  snapStart := none
  tags := []
  timeout := none
  tracingConfig := none
  vpcConfig := none }

/-- Witness for C1 at a concrete image-backed pair of states. -/
theorem validateUpdateFunction_codeTypeGuard_witness :
    validateUpdateFunction none (some c1Code) c1Fn = .ok () ∧
    validateUpdateFunction (some c1Conf) (some c1Code) c1Fn =
      (if remoteIsImageBacked c1Conf (some c1Code) ≠ functionIsImageBacked c1Fn
       then .error .cannotUpdateImageAndZip else .ok ()) :=
  validateUpdateFunction_codeTypeGuard c1Conf (some c1Code) c1Fn
    (by decide) (by decide)

/-- A live configuration whose declared package type is `Image` but whose
code location does not report the `ECR` repository type. -/
def c3Conf : FunctionConfiguration := {
  architectures := []
  codeSha256 := none
  deadLetterConfig := none
  description := none
  environment := none
  ephemeralStorage := none
  fileSystemConfigs := []
  functionName := some "f"
  handler := none
  imageConfigResponse := none
  kmsKeyArn := none
  lastModified := none
  layers := []
  loggingConfig := none
  memorySize := none
  packageType := some "Image"
  role := none
  runtime := ""
  snapStart := none
  timeout := none
  tracingConfig := none
  version := some "1"
  vpcConfig := none }

/-- A code location carrying an image URI with a non-image repository type. -/
def c3Code : FunctionCodeLocation := {
  imageUri := some "123.dkr.ecr.example/app:latest"
  location := none
  repositoryType := some "S3"
  resolvedImageUri := none }

/-- C3 counterexample: the configuration's declared package type is `Image`,
so the claim requires the reconstructed definition to be marked `Image` with
an image-URI code reference; but `newFunctionFrom` reads the package type of
the value under construction (always unset), so the result keeps the empty
package type and a nil code reference. -/
theorem newFunctionFrom_codeType_cex :
    c3Conf.packageType = some packageTypeImage ∧
    (newFunctionFrom (some c3Conf) (some c3Code) []).map
      (fun fn => (fn.packageType, fn.code)) = some ("", none) ∧
    ("" : String) ≠ packageTypeImage := by
  refine ⟨rfl, rfl, by decide⟩

/-- Adding an alias name under one version preserves earlier entries. -/
theorem aliasMapAdd_mono {m : String → List String} {x w : String} (v name : String)
    (h : x ∈ m w) : x ∈ aliasMapAdd m v name w := by
  unfold aliasMapAdd
  split_ifs <;> simp [h]

/-- Adding an alias name under a version records it there. -/
theorem aliasMapAdd_self (m : String → List String) (v name : String) :
    name ∈ aliasMapAdd m v name v := by
  unfold aliasMapAdd
  simp

/-- The weighted-secondary fold preserves earlier entries. -/
theorem foldl_aliasMapAdd_mono (name x w : String) :
    ∀ (ws : List String) (m : String → List String), x ∈ m w →
      x ∈ (ws.foldl (fun m v => aliasMapAdd m v name) m) w := by
  intro ws
  induction ws with
  | nil => intro m h; exact h
  | cons v ws ih => intro m h; exact ih _ (aliasMapAdd_mono v name h)

/-- The weighted-secondary fold records the alias name under every weighted
version. -/
theorem foldl_aliasMapAdd_mem (name w : String) :
    ∀ (ws : List String) (m : String → List String), w ∈ ws →
      name ∈ (ws.foldl (fun m v => aliasMapAdd m v name) m) w := by
  intro ws
  induction ws with
  | nil => intro m h; cases h
  | cons v ws ih =>
    intro m h
    rcases List.mem_cons.mp h with rfl | h
    · exact foldl_aliasMapAdd_mono name name w ws _ (aliasMapAdd_self m w name)
    · exact ih _ h

/-- `collectAliases` preserves earlier entries of the version→aliases map. -/
theorem collectAliases_mono (x w : String) :
    ∀ (l : List AliasConfiguration) (m : String → List String),
      x ∈ m w → x ∈ collectAliases m l w := by
  intro l
  induction l with
  | nil => intro m h; exact h
  | cons a l ih =>
    intro m h
    rcases a with ⟨an, av, _ | ws⟩ <;> simp only [collectAliases]
    · exact ih _ (aliasMapAdd_mono _ _ h)
    · exact ih _ (foldl_aliasMapAdd_mono _ _ _ ws _ (aliasMapAdd_mono _ _ h))

/-- `collectAliases` records each alias's name under its primary version and
under every weighted secondary version. -/
theorem collectAliases_mem (w : String) :
    ∀ (l : List AliasConfiguration) (m : String → List String)
      (a : AliasConfiguration), a ∈ l →
      (w = a.functionVersion ∨ w ∈ weightVersions a) →
      a.name ∈ collectAliases m l w := by
  intro l
  induction l with
  | nil => intro m a h; cases h
  | cons b l ih =>
    intro m a hmem hv
    rcases List.mem_cons.mp hmem with rfl | hmem2
    · rcases a with ⟨an, av, aw⟩
      rcases aw with _ | ws <;> simp only [collectAliases] <;>
        simp only [weightVersions, Option.getD] at hv
      · rcases hv with rfl | hv
        · exact collectAliases_mono _ _ l _ (aliasMapAdd_self m _ an)
        · cases hv
      · rcases hv with rfl | hv
        · exact collectAliases_mono _ _ l _
            (foldl_aliasMapAdd_mono an an _ ws _ (aliasMapAdd_self m _ an))
        · exact collectAliases_mono _ _ l _ (foldl_aliasMapAdd_mem an w ws _ hv)
    · rcases b with ⟨bn, bv, _ | ws⟩ <;> simp only [collectAliases] <;>
        exact ih _ a hmem2 hv

/-- Processing a concatenation of alias lists processes them in sequence. -/
theorem collectAliases_append (l₁ l₂ : List AliasConfiguration) :
    ∀ m, collectAliases m (l₁ ++ l₂) = collectAliases (collectAliases m l₁) l₂ := by
  induction l₁ with
  | nil => intro m; rfl
  | cons a l ih =>
    intro m
    rcases a with ⟨an, av, _ | ws⟩ <;> simp only [List.cons_append, collectAliases] <;>
      exact ih _

/-- The page-by-page alias fold equals one pass over the concatenated pages. -/
theorem collectAliasPages_eq (pages : List (List AliasConfiguration)) :
    collectAliasPages pages = collectAliases (fun _ => []) pages.flatten := by
  suffices h : ∀ (ps : List (List AliasConfiguration)) (m : String → List String),
      ps.foldl collectAliases m = collectAliases m ps.flatten by
    exact h pages _
  intro ps
  induction ps with
  | nil => intro m; rfl
  | cons p ps ih =>
    intro m
    simp only [List.foldl_cons, List.flatten_cons]
    rw [ih, collectAliases_append]

/-- Every record emitted by the output-building loop carries exactly the
alias-map entry of its version. -/
theorem buildVersionsOutputs_aliases (pt : String → Option String)
    (al : String → List String) :
    ∀ (vs : List FunctionConfiguration) (out : List VersionsOutput),
      buildVersionsOutputs pt al vs = .ok out →
      ∀ r ∈ out, r.aliases = al r.version := by
  intro vs
  induction vs with
  | nil =>
    intro out h r hr
    simp only [buildVersionsOutputs] at h
    cases h
    cases hr
  | cons v vs ih =>
    intro out h r hr
    simp only [buildVersionsOutputs] at h
    by_cases hl : awsToString v.version = versionLatest
    · rw [if_pos hl] at h
      exact ih out h r hr
    · rw [if_neg hl] at h
      cases hp : pt (awsToString v.lastModified) with
      | none => simp [hp] at h
      | some lm =>
        simp only [hp] at h
        cases hrec : buildVersionsOutputs pt al vs with
        | error e => simp [hrec] at h
        | ok tail =>
          simp only [hrec, Except.ok.injEq] at h
          subst h
          rcases List.mem_cons.mp hr with rfl | hr
          · rfl
          · exact ih tail hrec r hr

/-- The versions of the emitted records are exactly the fetched versions,
in fetch order, with the mutable-head sentinel filtered out. -/
theorem buildVersionsOutputs_map_version (pt : String → Option String)
    (al : String → List String) :
    ∀ (vs : List FunctionConfiguration) (out : List VersionsOutput),
      buildVersionsOutputs pt al vs = .ok out →
      out.map VersionsOutput.version =
        (vs.map (fun v => awsToString v.version)).filter
          (fun s => s != versionLatest) := by
  intro vs
  induction vs with
  | nil =>
    intro out h
    simp only [buildVersionsOutputs] at h
    cases h
    rfl
  | cons v vs ih =>
    intro out h
    simp only [buildVersionsOutputs] at h
    by_cases hl : awsToString v.version = versionLatest
    · rw [if_pos hl] at h
      simp [List.filter_cons, hl, ih out h]
    · rw [if_neg hl] at h
      cases hp : pt (awsToString v.lastModified) with
      | none => simp [hp] at h
      | some lm =>
        simp only [hp] at h
        cases hrec : buildVersionsOutputs pt al vs with
        | error e => simp [hrec] at h
        | ok tail =>
          simp only [hrec, Except.ok.injEq] at h
          subst h
          simp [List.filter_cons, hl, ih tail hrec]

/-- C5: in the versions listing, an alias's name is attributed to the output
record of its primary version and to the record of every weighted secondary
version, for every sequence of alias pages and version pages. -/
theorem versionsList_alias_weight_accounting
    (parseTime : String → Option String)
    (aliasPages : List (List AliasConfiguration))
    (versionPages : List (List FunctionConfiguration))
    (out : List VersionsOutput)
    (hok : versionsList parseTime aliasPages versionPages = .ok out)
    (a : AliasConfiguration) (ha : a ∈ aliasPages.flatten)
    (r : VersionsOutput) (hr : r ∈ out)
    (hv : r.version = a.functionVersion ∨ r.version ∈ weightVersions a) :
    a.name ∈ r.aliases := by
  have hal : r.aliases = collectAliasPages aliasPages r.version :=
    buildVersionsOutputs_aliases parseTime _ _ out hok r hr
  rw [hal, collectAliasPages_eq]
  exact collectAliases_mem r.version aliasPages.flatten _ a ha hv

/-- An alias routing one tenth of the traffic to version "2". -/
def w5Alias : AliasConfiguration := {
  name := "current"
  functionVersion := "1"
  additionalVersionWeights := some ["2"] }

/-- A published version "1". -/
def w5v1 : FunctionConfiguration := {
  architectures := []
  codeSha256 := none
  deadLetterConfig := none
  description := none
  environment := none
  ephemeralStorage := none
  fileSystemConfigs := []
  functionName := some "f"
  handler := none
  imageConfigResponse := none
  kmsKeyArn := none
  lastModified := some "2024-01-01T00:00:00.000+0000"
  layers := []
  loggingConfig := none
  memorySize := none
  packageType := some "Zip"
  role := none
  runtime := "go1.x"
  snapStart := none
  timeout := none
  tracingConfig := none
  version := some "1"
  vpcConfig := none }

/-- A published version "2". -/
def w5v2 : FunctionConfiguration := { w5v1 with
  lastModified := some "2024-01-02T00:00:00.000+0000"
  version := some "2" }

/-- The mutable head. -/
def w5vLatest : FunctionConfiguration := { w5v1 with
  lastModified := some "2024-01-03T00:00:00.000+0000"
  version := some "$LATEST" }

/-- The record emitted for version "2" in the witness listing. -/
def w5Rec2 : VersionsOutput := {
  version := "2"
  aliases := ["current"]
  lastModified := "2024-01-02T00:00:00.000+0000"
  runtime := "go1.x" }

/-- The full output of the witness listing. -/
def w5Out : List VersionsOutput := [{
  version := "1"
  aliases := ["current"]
  lastModified := "2024-01-01T00:00:00.000+0000"
  runtime := "go1.x" }, w5Rec2]

/-- Witness for C5: a concrete two-page listing where the alias's name lands
on the record of its weighted secondary version "2". -/
theorem versionsList_alias_weight_accounting_witness :
    versionsList (fun s => some s) [[w5Alias]] [[w5vLatest, w5v1], [w5v2]] =
      .ok w5Out ∧ "current" ∈ w5Rec2.aliases :=
  ⟨rfl, versionsList_alias_weight_accounting (fun s => some s) [[w5Alias]]
    [[w5vLatest, w5v1], [w5v2]] w5Out rfl w5Alias (by decide) w5Rec2 (by decide)
    (by decide)⟩

/-- C7: the versions listing emits exactly the published versions — one
record per fetched version whose identifier is not the mutable-head sentinel
`$LATEST`, in fetch order, and no record for the sentinel. -/
theorem versionsList_exactly_published
    (parseTime : String → Option String)
    (aliasPages : List (List AliasConfiguration))
    (versionPages : List (List FunctionConfiguration))
    (out : List VersionsOutput)
    (hok : versionsList parseTime aliasPages versionPages = .ok out) :
    out.map VersionsOutput.version =
      (versionPages.flatten.map (fun v => awsToString v.version)).filter
        (fun s => s != versionLatest) :=
  buildVersionsOutputs_map_version parseTime _ _ out hok

/-- Witness for C7: on the concrete listing the sentinel is dropped and the
two published versions survive in fetch order. -/
theorem versionsList_exactly_published_witness :
    versionsList (fun s => some s) [[w5Alias]] [[w5vLatest, w5v1], [w5v2]] =
      .ok w5Out ∧ w5Out.map VersionsOutput.version = ["1", "2"] :=
  ⟨rfl, versionsList_exactly_published (fun s => some s) [[w5Alias]]
    [[w5vLatest, w5v1], [w5v2]] w5Out rfl⟩

/-- Version "2" listed before version "1" by the remote service. -/
def c6v2 : FunctionConfiguration := { w5v1 with version := some "2" }

/-- Version "1" listed after version "2". -/
def c6v1 : FunctionConfiguration := { w5v1 with version := some "1" }

/-- The output the listing produces for the out-of-order pages. -/
def c6Out : List VersionsOutput := [{
  version := "2"
  aliases := []
  lastModified := "2024-01-01T00:00:00.000+0000"
  runtime := "go1.x" }, {
  version := "1"
  aliases := []
  lastModified := "2024-01-01T00:00:00.000+0000"
  runtime := "go1.x" }]

/-- C6 counterexample: the listing performs no sort — when the service
returns versions out of order ("2" before "1"), the output records are not
in ascending version order. -/
theorem versionsList_sorted_cex :
    versionsList (fun s => some s) [] [[c6v2, c6v1]] = .ok c6Out ∧
    ¬ List.Pairwise versionAsc (c6Out.map VersionsOutput.version) :=
  ⟨rfl, by decide⟩

/-- C6 amended: the listing emits records in the service's fetch order (the
sentinel removed); consequently the records are sorted in ascending version
order whenever the fetched version sequence is — the code itself performs no
sorting. -/
theorem versionsList_order (parseTime : String → Option String)
    (aliasPages : List (List AliasConfiguration))
    (versionPages : List (List FunctionConfiguration))
    (out : List VersionsOutput)
    (hok : versionsList parseTime aliasPages versionPages = .ok out)
    (hsorted : List.Pairwise versionAsc
      ((versionPages.flatten.map (fun v => awsToString v.version)).filter
        (fun s => s != versionLatest))) :
    List.Pairwise versionAsc (out.map VersionsOutput.version) := by
  rw [buildVersionsOutputs_map_version parseTime _ _ out hok]
  exact hsorted

/-- Witness for C6 (amended): on an in-order listing the output is sorted. -/
theorem versionsList_order_witness :
    versionsList (fun s => some s) [[w5Alias]] [[w5vLatest, w5v1], [w5v2]] =
      .ok w5Out ∧
    List.Pairwise versionAsc (w5Out.map VersionsOutput.version) :=
  ⟨rfl, versionsList_order (fun s => some s) [[w5Alias]]
    [[w5vLatest, w5v1], [w5v2]] w5Out rfl (by decide)⟩

/-- C3 amended: when reconstructing from live state, the code reference is
set to the image URI and the package type marked `Image` if and only if the
code location's repository type is `ECR`; the configuration's declared
package type is never consulted (the condition's second disjunct reads the
freshly built value's package type, which is still unset).  Otherwise the
package type stays empty and the code reference nil (no embedded digest). -/
theorem newFunctionFrom_codeType (c : FunctionConfiguration)
    (code : Option FunctionCodeLocation) (tags : Tags) :
    (newFunctionFrom (some c) code tags).map (fun fn => (fn.packageType, fn.code)) =
      some (if repoTypeIsECR code then
        (packageTypeImage, some {
          imageUri := code.bind FunctionCodeLocation.imageUri
          s3Bucket := none
          s3Key := none
          s3ObjectVersion := none
          zipFile := none })
      else ("", none)) := by
  obtain ⟨carch, csha, cdlc, cdesc, cenv, ceph, cfsc, cname, chdl, cicr, ckms,
    clm, clay, clcf, cmem, cpt, crole, crt, css, ctmo, ctrc, cver, cvpc⟩ := c
  rcases cenv with _ | e <;> rcases cicr with _ | ⟨ic⟩ <;>
    (try rcases ic with _ | ic) <;> rcases ctrc with _ | t <;>
    rcases cvpc with _ | v <;> (try by_cases hv : v.vpcId = "") <;>
    by_cases hecr : repoTypeIsECR code <;>
    simp_all [newFunctionFrom, newFunctionTags, newFunctionCode, newFunctionVpc,
      newFunctionTracing, newFunctionLayers, newFunctionImageConfig,
      newFunctionEnvironment, newFunctionBase, packageTypeImage]

/-- A zip-backed (archive) desired definition. -/
def c8Fn : Function := {
  architectures := []
  code := none
  deadLetterConfig := none
  description := none
  environment := none
  ephemeralStorage := none
  fileSystemConfigs := []
  functionName := some "f"
  handler := some "index.handler"
  imageConfig := none
  kmsKeyArn := none
  layers := none
  loggingConfig := none
  memorySize := none
  packageType := ""
  role := some "arn:aws:iam::123456789012:role/lambda"
  runtime := "go1.x"
  snapStart := none
  tags := []
  timeout := none
  tracingConfig := none
  vpcConfig := none }

/-- An image-backed live configuration with a recorded code digest. -/
def c8Conf : FunctionConfiguration := { c3Conf with codeSha256 := some "oldsha=" }

/-- The image code location of the live function. -/
def c8CodeLoc : FunctionCodeLocation := {
  imageUri := some "123.dkr.ecr.example/app:latest"
  location := none
  repositoryType := some "ECR"
  resolvedImageUri := none }

/-- Diff inputs: CodeSha256 comparison requested against an image-backed
remote while the desired definition is archive-backed. -/
def c8Externals : DiffExternals := {
  opt := { codeSha256 := some true, ignore := none }
  expandExcludeFile := .ok []
  loadFunctionResult := .ok c8Fn
  getFunctionResult := .ok {
    configuration := c8Conf
    code := some c8CodeLoc
    tags := [] }
  gojqParseOk := true
  jsonDiffResult := .ok ""
  zipDigest := .ok "newsha=" }

/-- C8 counterexample: the remote package type is not `Zip` and the digest
comparison was requested, but `Diff` fails with the code-type mismatch error
from `validateUpdateFunction` — not the CodeSha256 usage error — because the
validation runs first. -/
theorem diffOp_codeSha256_cex :
    awsBoolValue c8Externals.opt.codeSha256 = true ∧
    stringsToLower (awsToString c8Conf.packageType) ≠ "zip" ∧
    diffOp c8Externals = ([RemoteCall.getFunction], .error .cannotUpdateImageAndZip) ∧
    LambrollError.cannotUpdateImageAndZip ≠ LambrollError.codeSha256Unsupported := by
  refine ⟨rfl, by decide, rfl, by decide⟩

/-- C8 amended: once the structural-diff stage and the code-type validation
have passed, a requested CodeSha256 comparison fails with the usage error
exactly when the remote package type (lower-cased) is not `zip`; otherwise
the archive digest is computed and the digest diff lines are printed if and
only if it differs from the remote's recorded digest. -/
theorem diffOp_codeSha256_guard (ext : DiffExternals) (res : GetFunctionOutput)
    (excludes : List String) (hexp : ext.expandExcludeFile = .ok excludes)
    (f0 : Function) (hload : ext.loadFunctionResult = .ok f0)
    (hget : ext.getFunctionResult = .ok res)
    (hignore : awsToString ext.opt.ignore = "" ∨ ext.gojqParseOk = true)
    (d : String) (hjd : ext.jsonDiffResult = .ok d)
    (hval : validateUpdateFunction (some res.configuration) res.code
      (fillDefaultValues f0) = .ok ())
    (hsha : awsBoolValue ext.opt.codeSha256 = true) :
    diffOp ext = ([RemoteCall.getFunction],
      if stringsToLower (awsToString res.configuration.packageType) ≠ "zip" then
        .error .codeSha256Unsupported
      else
        match ext.zipDigest with
        | .error e => .error e
        | .ok s => .ok { digestPrinted :=
            s != awsToString res.configuration.codeSha256 }) := by
  have hig : ¬ (awsToString ext.opt.ignore ≠ "" ∧ ¬ ext.gojqParseOk = true) := by
    rcases hignore with h | h <;> simp [h]
  simp only [diffOp, hexp, hload, hget, hjd, hval, hsha, if_neg hig, if_true]
  by_cases hz : stringsToLower (awsToString res.configuration.packageType) ≠ "zip"
  · rw [if_pos hz, if_pos hz]
  · rw [if_neg hz, if_neg hz]
    cases ext.zipDigest <;> rfl

/-- A zip-backed live configuration matching `c8Fn`. -/
def c8wConf : FunctionConfiguration := { c8Conf with
  packageType := some "Zip"
  codeSha256 := some "oldsha=" }

/-- Diff inputs for the archive/archive digest comparison. -/
def c8wExternals : DiffExternals := { c8Externals with
  getFunctionResult := .ok {
    configuration := c8wConf
    code := none
    tags := [] } }

/-- Witness for C8 (amended): with a zip-backed remote and a differing
archive digest, the digest diff lines are printed. -/
theorem diffOp_codeSha256_guard_witness :
    diffOp c8wExternals = ([RemoteCall.getFunction],
      if stringsToLower (awsToString c8wConf.packageType) ≠ "zip" then
        .error .codeSha256Unsupported
      else
        match c8wExternals.zipDigest with
        | .error e => .error e
        | .ok s => .ok { digestPrinted :=
            s != awsToString c8wConf.codeSha256 }) :=
  diffOp_codeSha256_guard c8wExternals
    { configuration := c8wConf, code := none, tags := [] }
    [] rfl c8Fn rfl rfl (Or.inl rfl) "" rfl rfl rfl

/-- C9: `Diff` never mutates remote state — every remote call it issues, on
every input and on every control path, is a read (in fact the only call it
can issue is the single `GetFunction`). -/
theorem diffOp_no_mutation (ext : DiffExternals) (c : RemoteCall)
    (hc : c ∈ (diffOp ext).1) : c.isMutating = false := by
  have htrace : (diffOp ext).1 = [] ∨ (diffOp ext).1 = [RemoteCall.getFunction] := by
    unfold diffOp
    dsimp only
    repeat' split
    all_goals first | (left; rfl) | (right; rfl)
  rcases htrace with h | h <;> rw [h] at hc
  · cases hc
  · have hgf : c = RemoteCall.getFunction := by simpa using hc
    subst hgf
    rfl

/-- Diff inputs where the remote fetch itself fails. -/
def c9Externals : DiffExternals := { c8Externals with
  getFunctionResult := .error .getFunctionFailed }

/-- Witness for C9: the concrete trace contains the `GetFunction` read and
nothing mutating. -/
theorem diffOp_no_mutation_witness :
    RemoteCall.getFunction ∈ (diffOp c9Externals).1 ∧
    RemoteCall.getFunction.isMutating = false :=
  ⟨by decide, diffOp_no_mutation c9Externals .getFunction (by decide)⟩

end Lambroll
